import Mathlib

/-!
Verification development for the playwright-render-api service: a shallow
embedding of the render job control plane — the concurrency admission gate,
the in-memory job registry, the render-route pipeline with its catch/finally
error handling, request validation, the readiness-flag poller, and the
storage upload path — together with theorems about their behaviour.

Sources embedded:
* `src/middleware/concurrency.ts` — job registry and admission middleware
* `src/routes/render.ts` — POST /render/pdf and /render/image pipelines,
  `handleRenderError`, `getStatusCode`
* `src/types/index.ts` — zod request schemas and response shapes
* `src/services/playwright.ts` — `waitForRenderReady` and the render engine
* `src/services/storage.ts` — `uploadFile` and the unconfigured-client guard
* `src/config/env.ts` — `MAX_CONCURRENT_JOBS` parsing
-/

set_option autoImplicit false

namespace RenderApi

/-! ## String helpers

JavaScript `String.prototype.includes` and first-occurrence `replace`,
modelled over the character lists underlying Lean strings so that every
use is kernel-executable. -/

/-- `hasInfix s pat`: does `pat` occur as a contiguous run inside `s`?
Mirrors JS `s.includes(pat)`. -/
def hasInfix : List Char → List Char → Bool
  | s, pat =>
    if pat.isPrefixOf s then true
    else
      match s with
      | [] => false
      | _ :: t => hasInfix t pat

/-- JS `s.includes(pat)` on Lean strings. -/
def strContains (s pat : String) : Bool :=
  hasInfix s.data pat.data

/-- Remove the first occurrence of `pat` from `s` (character-list core).
Mirrors JS `s.replace(pat, "")`, which replaces only the first match. -/
def dropFirstInfix : List Char → List Char → List Char
  | s, pat =>
    if pat.isPrefixOf s then s.drop pat.length
    else
      match s with
      | [] => []
      | c :: t => c :: dropFirstInfix t pat

/-- JS `s.replace(pat, "")` on Lean strings. -/
def strDropFirst (s pat : String) : String :=
  ⟨dropFirstInfix s.data pat.data⟩

/-! ## Data model (`src/types/index.ts`) -/

/-- `RenderJob.type` field. -/
inductive JobType where
  | pdf
  | image
  deriving DecidableEq, Repr

/-- `RenderJob.status` field: the job lifecycle states. -/
inductive JobStatus where
  | pending
  | rendering
  | uploading
  | completed
  | failed
  deriving DecidableEq, Repr

/-- `RenderJob` from `src/types/index.ts`. `startedAt` (a wall-clock `Date`)
is modelled as an opaque `Nat` tick. -/
structure RenderJob where
  id : String
  type : JobType
  url : String
  startedAt : Nat
  status : JobStatus
  deriving DecidableEq, Repr

/-- `RenderErrorCode` from `src/types/index.ts`. -/
inductive RenderErrorCode where
  | VALIDATION_FAILED
  | UNAUTHORIZED
  | FORBIDDEN
  | RENDER_FAILED
  | READY_FLAG_TIMEOUT
  | NAVIGATION_TIMEOUT
  | STORAGE_FAILED
  | CONCURRENCY_LIMIT
  | INTERNAL_ERROR
  deriving DecidableEq, Repr

/-- One zod validation issue: the offending field's path and a message. -/
structure ZodIssue where
  path : String
  message : String
  deriving DecidableEq, Repr

/-- The `details` payload of an error response: absent, the zod issue list,
or the capacity counters attached by the concurrency middleware. -/
inductive ErrorDetails where
  | noDetails
  | zodIssues (issues : List ZodIssue)
  | capacity (activeJobs maxConcurrent : Nat)
  deriving DecidableEq, Repr

/-- `RenderErrorResponse` from `src/types/index.ts`. -/
structure RenderErrorResponse where
  error : RenderErrorCode
  message : String
  jobId : Option String
  details : ErrorDetails
  deriving DecidableEq, Repr

/-- `RenderSuccessResponse` from `src/types/index.ts`.  `renderTimeMs` is
wall-clock derived and modelled as an opaque `Nat`. -/
structure RenderSuccessResponse where
  jobId : String
  url : Option String
  dataUrl : Option String
  filename : String
  fileSize : Nat
  expiresAt : Option String
  format : String
  width : Option Nat
  height : Option Nat
  deriving DecidableEq, Repr

/-- A route's JSON body: `{success:true, ...}` or `{success:false, ...}`. -/
inductive RouteResponse where
  | ok (r : RenderSuccessResponse)
  | err (r : RenderErrorResponse)
  deriving DecidableEq, Repr

/-- The error code of a response, when it is a failure body. -/
def RouteResponse.errorCode : RouteResponse → Option RenderErrorCode
  | .ok _ => none
  | .err r => some r.error

/-! ## Job registry (`src/middleware/concurrency.ts`)

`const activeJobs = new Map<string, RenderJob>()`, modelled as an
insertion-ordered association list with JS `Map` semantics. -/

/-- The in-memory job map. -/
abbrev Registry := List (String × RenderJob)

/-- JS `Map.get`. -/
def mapGet (m : Registry) (k : String) : Option RenderJob :=
  match m with
  | [] => none
  | (k1, v1) :: rest => if k1 = k then some v1 else mapGet rest k

/-- JS `Map.set`: replace in place if the key exists, else append. -/
def mapSet (m : Registry) (k : String) (v : RenderJob) : Registry :=
  match m with
  | [] => [(k, v)]
  | (k1, v1) :: rest =>
    if k1 = k then (k, v) :: rest else (k1, v1) :: mapSet rest k v

/-- JS `Map.delete` (keys are unique in a `Map`, so removing every pair
with the key is the same operation). -/
def mapDelete (m : Registry) (k : String) : Registry :=
  m.filter (fun e => e.1 ≠ k)

/-- `getActiveJobCount()`: `activeJobs.size`. -/
def getActiveJobCount (m : Registry) : Nat :=
  m.length

/-- `getActiveJobs()`: `Array.from(activeJobs.values())`. -/
def getActiveJobs (m : Registry) : List RenderJob :=
  m.map (·.2)

/-- `registerJob(job)`: `activeJobs.set(job.id, job)`. -/
def registerJob (m : Registry) (job : RenderJob) : Registry :=
  mapSet m job.id job

/-- Overwrite the status field of the entry stored under `jobId` (the
`Map` holds at most one entry per key). -/
def setJobStatus (m : Registry) (jobId : String) (status : JobStatus) : Registry :=
  match m with
  | [] => []
  | (k1, v1) :: rest =>
    if k1 = jobId then (k1, { v1 with status := status }) :: rest
    else (k1, v1) :: setJobStatus rest jobId status

/-- `updateJobStatus(jobId, status)`: fetch the job and mutate its status
field in place; a no-op when the job is absent. -/
def updateJobStatus (m : Registry) (jobId : String) (status : JobStatus) : Registry :=
  match mapGet m jobId with
  | none => m
  | some _ => setJobStatus m jobId status

/-- `removeJob(jobId)`: `activeJobs.delete(jobId)`. -/
def removeJob (m : Registry) (jobId : String) : Registry :=
  mapDelete m jobId

/-! ## Error classification (`src/routes/render.ts`) -/

/-- A value thrown inside the route's `try` block: a `ZodError`, an
`Error` instance carrying a message, or a non-`Error` throw. -/
inductive ThrownError where
  | zod (issues : List ZodIssue)
  | err (message : String)
  | nonError
  deriving DecidableEq, Repr

/-- `handleRenderError` from `src/routes/render.ts`: classify a thrown
value into a `RenderErrorResponse`. `production` is
`env.NODE_ENV === "production"`. -/
def handleRenderError (production : Bool) (error : ThrownError) (jobId : String) :
    RenderErrorResponse :=
  match error with
  | .zod issues =>
    { error := .VALIDATION_FAILED
      message := "Invalid request data"
      jobId := some jobId
      details := .zodIssues issues }
  | .err message =>
    if strContains message "READY_FLAG_TIMEOUT" then
      { error := .READY_FLAG_TIMEOUT
        message := "Page did not signal render ready in time. Ensure __RENDER_READY__ is set."
        jobId := some jobId
        details := .noDetails }
    else if strContains message "NAVIGATION_TIMEOUT" || strContains message "Timeout" then
      { error := .NAVIGATION_TIMEOUT
        message := "Page navigation timed out"
        jobId := some jobId
        details := .noDetails }
    else if strContains message "STORAGE_FAILED" then
      { error := .STORAGE_FAILED
        message := strDropFirst message "STORAGE_FAILED: "
        jobId := some jobId
        details := .noDetails }
    else
      { error := .RENDER_FAILED
        message := if production then "Render failed" else message
        jobId := some jobId
        details := .noDetails }
  | .nonError =>
    { error := .INTERNAL_ERROR
      message := "An unexpected error occurred"
      jobId := some jobId
      details := .noDetails }

/-- `getStatusCode` from `src/routes/render.ts`: HTTP status for each
error code. -/
def getStatusCode (error : RenderErrorCode) : Nat :=
  match error with
  | .VALIDATION_FAILED => 400
  | .UNAUTHORIZED => 401
  | .FORBIDDEN => 403
  | .CONCURRENCY_LIMIT => 503
  | .READY_FLAG_TIMEOUT => 408
  | .NAVIGATION_TIMEOUT => 408
  | .STORAGE_FAILED => 500
  | .RENDER_FAILED => 500
  | .INTERNAL_ERROR => 500

/-! ## Request schemas (`src/types/index.ts`)

The two zod schemas, modelled as checks over raw bodies whose fields may
be absent (`none` ⇒ the zod default applies). `z.number()` values are
modelled as `Int`. A `z.object` parse evaluates every field and collects
all issues, so validation reports every invalid field at once. -/

/-- `paperSize` enum. -/
inductive PaperSize where
  | A4
  | Letter
  | Legal
  deriving DecidableEq, Repr

/-- `orientation` enum. -/
inductive Orientation where
  | portrait
  | landscape
  deriving DecidableEq, Repr

/-- `format` enum of the image schema. -/
inductive ImageFormat where
  | png
  | jpeg
  | webp
  deriving DecidableEq, Repr

/-- File extension / metadata name of an image format. -/
def ImageFormat.ext : ImageFormat → String
  | .png => "png"
  | .jpeg => "jpeg"
  | .webp => "webp"

/-- The margins object of the PDF schema, after defaulting. -/
structure Margins where
  top : String
  bottom : String
  left : String
  right : String
  deriving DecidableEq, Repr

/-- A parsed `PdfRenderRequest`. -/
structure PdfRenderRequest where
  url : String
  authToken : Option String
  paperSize : PaperSize
  orientation : Orientation
  printBackground : Bool
  margins : Margins
  filename : Option String
  uploadToStorage : Bool
  storagePath : Option String
  deriving DecidableEq, Repr

/-- A parsed `ImageRenderRequest`. -/
structure ImageRenderRequest where
  url : String
  authToken : Option String
  format : ImageFormat
  quality : Int
  width : Int
  height : Int
  scale : Int
  filename : Option String
  uploadToStorage : Bool
  storagePath : Option String
  deriving DecidableEq, Repr

/-- Raw margins as sent by the client (missing subfields are defaulted). -/
structure RawMargins where
  top : Option String
  bottom : Option String
  left : Option String
  right : Option String
  deriving DecidableEq, Repr

/-- Raw body of `POST /render/pdf` before validation. -/
structure RawPdfBody where
  url : Option String
  authToken : Option String
  paperSize : Option String
  orientation : Option String
  printBackground : Option Bool
  margins : Option RawMargins
  filename : Option String
  uploadToStorage : Option Bool
  storagePath : Option String
  deriving DecidableEq, Repr

/-- Raw body of `POST /render/image` before validation. -/
structure RawImageBody where
  url : Option String
  authToken : Option String
  format : Option String
  quality : Option Int
  width : Option Int
  height : Option Int
  scale : Option Int
  filename : Option String
  uploadToStorage : Option Bool
  storagePath : Option String
  deriving DecidableEq, Repr

/-- Issues of `url: z.string().min(1)` (required, nonempty). -/
def urlIssues : Option String → List ZodIssue
  | none => [⟨"url", "Required"⟩]
  | some s =>
    if s.length < 1 then [⟨"url", "String must contain at least 1 character(s)"⟩] else []

/-- Issues of a `z.enum(values).default(_)` field. -/
def enumIssues (field : String) (values : List String) : Option String → List ZodIssue
  | none => []
  | some s => if s ∈ values then [] else [⟨field, "Invalid enum value"⟩]

/-- Issues of a `z.number().min(lo).max(hi).default(_)` field. -/
def numRangeIssues (field : String) (lo hi : Int) : Option Int → List ZodIssue
  | none => []
  | some n =>
    (if n < lo then [⟨field, "Number must be greater than or equal to " ++ toString lo⟩]
     else [])
      ++ (if n > hi then [⟨field, "Number must be less than or equal to " ++ toString hi⟩]
          else [])

/-- All issues of `PdfRenderRequestSchema.parse`, in field order. -/
def pdfIssues (b : RawPdfBody) : List ZodIssue :=
  urlIssues b.url
    ++ enumIssues "paperSize" ["A4", "Letter", "Legal"] b.paperSize
    ++ enumIssues "orientation" ["portrait", "landscape"] b.orientation

/-- All issues of `ImageRenderRequestSchema.parse`, in field order. -/
def imageIssues (b : RawImageBody) : List ZodIssue :=
  urlIssues b.url
    ++ enumIssues "format" ["png", "jpeg", "webp"] b.format
    ++ numRangeIssues "quality" 1 100 b.quality
    ++ numRangeIssues "width" 1 4096 b.width
    ++ numRangeIssues "height" 1 4096 b.height
    ++ numRangeIssues "scale" 1 3 b.scale

/-- Decode a valid `paperSize` string. -/
def paperSizeOf (s : String) : PaperSize :=
  if s = "Letter" then .Letter else if s = "Legal" then .Legal else .A4

/-- Decode a valid `orientation` string. -/
def orientationOf (s : String) : Orientation :=
  if s = "landscape" then .landscape else .portrait

/-- Decode a valid image `format` string. -/
def imageFormatOf (s : String) : ImageFormat :=
  if s = "jpeg" then .jpeg else if s = "webp" then .webp else .png

/-- Apply the margin defaults (`20mm`/`20mm`/`15mm`/`15mm`). -/
def marginsOf (m : Option RawMargins) : Margins :=
  match m with
  | none => { top := "20mm", bottom := "20mm", left := "15mm", right := "15mm" }
  | some r =>
    { top := r.top.getD "20mm", bottom := r.bottom.getD "20mm"
      left := r.left.getD "15mm", right := r.right.getD "15mm" }

/-- `PdfRenderRequestSchema.parse`: either every collected issue, or the
parsed request with defaults applied. -/
def validatePdf (b : RawPdfBody) : Except (List ZodIssue) PdfRenderRequest :=
  match pdfIssues b with
  | [] =>
    .ok
      { url := b.url.getD ""
        authToken := b.authToken
        paperSize := paperSizeOf (b.paperSize.getD "A4")
        orientation := orientationOf (b.orientation.getD "portrait")
        printBackground := b.printBackground.getD true
        margins := marginsOf b.margins
        filename := b.filename
        uploadToStorage := b.uploadToStorage.getD true
        storagePath := b.storagePath }
  | issues => .error issues

/-- `ImageRenderRequestSchema.parse`: either every collected issue, or the
parsed request with defaults applied. -/
def validateImage (b : RawImageBody) : Except (List ZodIssue) ImageRenderRequest :=
  match imageIssues b with
  | [] =>
    .ok
      { url := b.url.getD ""
        authToken := b.authToken
        format := imageFormatOf (b.format.getD "png")
        quality := b.quality.getD 90
        width := b.width.getD 1080
        height := b.height.getD 1080
        scale := b.scale.getD 1
        filename := b.filename
        uploadToStorage := b.uploadToStorage.getD true
        storagePath := b.storagePath }
  | issues => .error issues

/-! ## Configuration (`src/config/env.ts`) -/

/-- `MAX_CONCURRENT_JOBS: z.coerce.number().min(1).max(10).default(2)`:
absent ⇒ 2; present ⇒ accepted exactly when it lies in 1..10. -/
def parseMaxConcurrentJobs : Option Int → Except String Int
  | none => .ok 2
  | some n =>
    if n < 1 then .error "Number must be greater than or equal to 1"
    else if n > 10 then .error "Number must be less than or equal to 10"
    else .ok n

/-! ## Readiness detector (`src/services/playwright.ts`, `waitForRenderReady`)

The page's time-dependent `__RENDER_READY__` flag is a predicate on
elapsed milliseconds. The in-page promise checks the flag immediately,
then a `setInterval(…, 100)` callback re-checks it every 100ms; at each
tick the flag test comes first, and only a false flag with
`elapsed > timeout` resolves `false`. Fuel bounds the recursion; the
wrapper supplies enough fuel for the loop to reach its timeout exit. -/

/-- One observable action of the render engine around readiness. -/
inductive RenderStep where
  | waitFontsReady
  | checkFlag (elapsedMs : Nat)
  | settleDelay (ms : Nat)
  deriving DecidableEq, Repr

/-- The `setInterval` polling loop: at tick `k` (elapsed `100 * k` ms)
return `true` if the flag is set, give up if the elapsed time exceeds the
budget, else keep polling. Also records every elapsed time at which the
flag was sampled. -/
def pollFlag (flag : Nat → Bool) (timeoutMs : Nat) : Nat → Nat → Bool × List Nat
  | _, 0 => (false, [])
  | tick, fuel + 1 =>
    let t := 100 * tick
    if flag t then (true, [t])
    else if t > timeoutMs then (false, [t])
    else
      let r := pollFlag flag timeoutMs (tick + 1) fuel
      (r.1, t :: r.2)

/-- The promise returned by `page.evaluate`: immediate check at elapsed 0,
then the interval loop from tick 1. -/
def readyFlagResult (flag : Nat → Bool) (timeoutMs : Nat) : Bool × List Nat :=
  if flag 0 then (true, [0])
  else
    let r := pollFlag flag timeoutMs 1 (timeoutMs / 100 + 2)
    (r.1, 0 :: r.2)

/-- The message of the error thrown when the flag never appears. -/
def readyFlagTimeoutMessage (timeoutMs : Nat) : String :=
  "READY_FLAG_TIMEOUT: __RENDER_READY__ flag not set within " ++ toString timeoutMs ++ "ms"

/-- `waitForRenderReady`: wait for `document.fonts.ready` (unbounded),
run the flag poll, and on success wait a fixed 150ms settle delay; on a
false poll result throw the `READY_FLAG_TIMEOUT` error. Returns the
outcome together with the ordered list of performed steps. -/
def waitForRenderReady (flag : Nat → Bool) (timeoutMs : Nat) :
    Except ThrownError Unit × List RenderStep :=
  let r := readyFlagResult flag timeoutMs
  if r.1 then
    (.ok (), .waitFontsReady :: r.2.map .checkFlag ++ [.settleDelay 150])
  else
    (.error (.err (readyFlagTimeoutMessage timeoutMs)), .waitFontsReady :: r.2.map .checkFlag)

/-! ## Render engine (`src/services/playwright.ts`, `renderPdf`) -/

/-- Environment of one engine invocation: the navigation outcome (a
thrown message on failure), the page's readiness flag over time, and the
capture outcome. -/
structure EngineWorld where
  navigationResult : Except String Unit
  readyFlag : Nat → Bool
  captureResult : Except String (List Nat)
  deriving Inhabited

/-- `renderPdf`, at the granularity the claims need: navigate, wait for
readiness, capture; each failure propagates as a thrown `Error`. -/
def renderPdfEngine (ew : EngineWorld) (readyTimeoutMs : Nat) :
    Except ThrownError (List Nat) :=
  match ew.navigationResult with
  | .error msg => .error (.err msg)
  | .ok _ =>
    match (waitForRenderReady ew.readyFlag readyTimeoutMs).1 with
    | .error e => .error e
    | .ok _ =>
      match ew.captureResult with
      | .error msg => .error (.err msg)
      | .ok bytes => .ok bytes

/-! ## Storage upload (`src/services/storage.ts`) -/

/-- Observable side effects of one request pipeline. -/
inductive PipelineEvent where
  | engineInvoked
  | uploadAttempted
  | signedUrlRequested
  deriving DecidableEq, Repr

/-- `UploadResult` from `src/services/storage.ts`. -/
structure UploadResult where
  path : String
  signedUrl : String
  expiresAt : String
  deriving DecidableEq, Repr

/-- Storage environment: whether `initStorage` created a client (both
credentials present), and the backend's upload / signed-URL outcomes. -/
structure StorageWorld where
  configured : Bool
  uploadOutcome : Except String Unit
  signedUrlOutcome : Option String
  expiresAt : String

/-- The message of the error `getClient()` throws when `initStorage`
skipped client creation. -/
def storageNotConfiguredMessage : String :=
  "STORAGE_FAILED: Supabase not configured. Set SUPABASE_URL and SUPABASE_SERVICE_ROLE_KEY or use uploadToStorage: false"

/-- `storagePath.replace(/^\/|\/$/g, "")`: drop one leading and one
trailing slash. -/
def stripOuterSlashes (s : String) : String :=
  let l := if s.data.head? = some '/' then s.data.tail else s.data
  ⟨if l.getLast? = some '/' then l.dropLast else l⟩

/-- The full object path built by `uploadFile`. -/
def buildStoragePath (storagePath : Option String) (filename : String) : String :=
  let basePath := match storagePath with
    | none => ""
    | some p => stripOuterSlashes p
  if basePath = "" then filename else basePath ++ "/" ++ filename

/-- `uploadFile`: `getClient()` throws before any upload when the client
was never created; otherwise the upload and then the signed-URL request
run against the backend, each failure rethrown as a `STORAGE_FAILED`
error. Also returns which backend calls were made. -/
def uploadFile (w : StorageWorld) (bufferLen : Nat) (filename contentType : String)
    (storagePath : Option String) (jobId : String) :
    Except ThrownError UploadResult × List PipelineEvent :=
  if w.configured = false then
    (.error (.err storageNotConfiguredMessage), [])
  else
    match w.uploadOutcome with
    | .error msg => (.error (.err ("STORAGE_FAILED: " ++ msg)), [.uploadAttempted])
    | .ok _ =>
      match w.signedUrlOutcome with
      | none =>
        (.error (.err "STORAGE_FAILED: Failed to create signed URL"),
          [.uploadAttempted, .signedUrlRequested])
      | some u =>
        (.ok { path := buildStoragePath storagePath filename, signedUrl := u,
               expiresAt := w.expiresAt },
          [.uploadAttempted, .signedUrlRequested])

/-! ## Base64 (`pdfBuffer.toString("base64")`)

Standard base64 over byte lists (each byte `< 256`), used by the
`dataUrl` branch of the routes. -/

/-- The base64 alphabet. -/
def b64Alphabet : List Char :=
  ['A', 'B', 'C', 'D', 'E', 'F', 'G', 'H', 'I', 'J', 'K', 'L', 'M',
   'N', 'O', 'P', 'Q', 'R', 'S', 'T', 'U', 'V', 'W', 'X', 'Y', 'Z',
   'a', 'b', 'c', 'd', 'e', 'f', 'g', 'h', 'i', 'j', 'k', 'l', 'm',
   'n', 'o', 'p', 'q', 'r', 's', 't', 'u', 'v', 'w', 'x', 'y', 'z',
   '0', '1', '2', '3', '4', '5', '6', '7', '8', '9', '+', '/']

/-- Character of one sextet value. -/
def sextetChar (n : Nat) : Char :=
  b64Alphabet.getD n '='

/-- Value of one base64 character. -/
def sextetVal (c : Char) : Option Nat :=
  let i := b64Alphabet.indexOf c
  if i < 64 then some i else none

/-- Base64-encode a byte list, three bytes to four characters, with
`=` padding. -/
def base64EncodeChars : List Nat → List Char
  | [] => []
  | [a] => [sextetChar (a / 4), sextetChar (a % 4 * 16), '=', '=']
  | [a, b] => [sextetChar (a / 4), sextetChar (a % 4 * 16 + b / 16), sextetChar (b % 16 * 4), '=']
  | a :: b :: c :: rest =>
    sextetChar (a / 4) :: sextetChar (a % 4 * 16 + b / 16) ::
      sextetChar (b % 16 * 4 + c / 64) :: sextetChar (c % 64) :: base64EncodeChars rest

/-- `buffer.toString("base64")`. -/
def base64Encode (bytes : List Nat) : String :=
  ⟨base64EncodeChars bytes⟩

/-- Base64-decode a character list back to bytes; `none` on any
malformed input. A final quad may end in `=` padding. -/
def base64DecodeChars : List Char → Option (List Nat)
  | [] => some []
  | c0 :: c1 :: c2 :: c3 :: rest =>
    match rest with
    | [] =>
      if c3 = '=' then
        if c2 = '=' then
          match sextetVal c0, sextetVal c1 with
          | some s0, some s1 => some [s0 * 4 + s1 / 16]
          | _, _ => none
        else
          match sextetVal c0, sextetVal c1, sextetVal c2 with
          | some s0, some s1, some s2 =>
            some [s0 * 4 + s1 / 16, s1 % 16 * 16 + s2 / 4]
          | _, _, _ => none
      else
        match sextetVal c0, sextetVal c1, sextetVal c2, sextetVal c3 with
        | some s0, some s1, some s2, some s3 =>
          some [s0 * 4 + s1 / 16, s1 % 16 * 16 + s2 / 4, s2 % 4 * 64 + s3]
        | _, _, _, _ => none
    | _ :: _ =>
      match sextetVal c0, sextetVal c1, sextetVal c2, sextetVal c3,
          base64DecodeChars rest with
      | some s0, some s1, some s2, some s3, some tail =>
        some ((s0 * 4 + s1 / 16) :: (s1 % 16 * 16 + s2 / 4) :: (s2 % 4 * 64 + s3) :: tail)
      | _, _, _, _, _ => none
  | _ => none

/-- Base64-decode a string. -/
def base64Decode (s : String) : Option (List Nat) :=
  base64DecodeChars s.data

/-! ## Route pipelines (`src/routes/render.ts`)

Each handler is modelled as a pure function of the request-scoped
environment: the engine outcome, the storage environment, and the
timestamp used for derived filenames. It returns the JSON body, the HTTP
status, the final registry, the ordered list of statuses assigned to the
job (job creation assigns `pending`; each `updateJobStatus` call assigns
its argument), and the pipeline's observable events. -/

/-- Service configuration relevant to the routes. -/
structure AppConfig where
  production : Bool
  maxConcurrentJobs : Nat
  readyFlagTimeoutMs : Nat

/-- Request-scoped environment. -/
structure RequestWorld where
  renderResult : Except ThrownError (List Nat)
  storage : StorageWorld
  timestamp : String

/-- Everything a handler invocation produces. -/
structure PipeOut where
  resp : RouteResponse
  httpStatus : Nat
  registry : Registry
  trace : List JobStatus
  events : List PipelineEvent

/-- `req.body?.url || "unknown"`: the diagnostic URL of the job object
created before validation (empty string is falsy in JS). -/
def rawUrlOrUnknown (url : Option String) : String :=
  match url with
  | none => "unknown"
  | some u => if u = "" then "unknown" else u

/-- The `POST /render/pdf` handler body (try/catch/finally). -/
def pdfRoute (cfg : AppConfig) (w : RequestWorld) (body : RawPdfBody) (jobId : String)
    (reg : Registry) : PipeOut :=
  let job : RenderJob :=
    { id := jobId, type := .pdf, url := rawUrlOrUnknown body.url,
      startedAt := 0, status := .pending }
  match validatePdf body with
  | .error issues =>
    -- `PdfRenderRequestSchema.parse` threw; the job was never registered.
    let reg1 := updateJobStatus reg jobId .failed
    let resp := handleRenderError cfg.production (.zod issues) jobId
    { resp := .err resp, httpStatus := getStatusCode resp.error,
      registry := removeJob reg1 jobId,
      trace := [.pending, .failed], events := [] }
  | .ok request =>
    let reg1 := registerJob reg { job with url := request.url }
    let reg2 := updateJobStatus reg1 jobId .rendering
    match w.renderResult with
    | .error e =>
      let reg3 := updateJobStatus reg2 jobId .failed
      let resp := handleRenderError cfg.production e jobId
      { resp := .err resp, httpStatus := getStatusCode resp.error,
        registry := removeJob reg3 jobId,
        trace := [.pending, .rendering, .failed], events := [.engineInvoked] }
    | .ok bytes =>
      let filename :=
        match request.filename with
        | some f => f ++ ".pdf"
        | none => "render-" ++ w.timestamp ++ ".pdf"
      if request.uploadToStorage then
        let reg3 := updateJobStatus reg2 jobId .uploading
        let up := uploadFile w.storage bytes.length filename "application/pdf"
          request.storagePath jobId
        match up.1 with
        | .error e =>
          let reg4 := updateJobStatus reg3 jobId .failed
          let resp := handleRenderError cfg.production e jobId
          { resp := .err resp, httpStatus := getStatusCode resp.error,
            registry := removeJob reg4 jobId,
            trace := [.pending, .rendering, .uploading, .failed],
            events := .engineInvoked :: up.2 }
        | .ok u =>
          let resp : RenderSuccessResponse :=
            { jobId := jobId, url := some u.signedUrl, dataUrl := none,
              filename := filename, fileSize := bytes.length,
              expiresAt := some u.expiresAt, format := "pdf",
              width := none, height := none }
          let reg4 := updateJobStatus reg3 jobId .completed
          { resp := .ok resp, httpStatus := 200,
            registry := removeJob reg4 jobId,
            trace := [.pending, .rendering, .uploading, .completed],
            events := .engineInvoked :: up.2 }
      else
        let resp : RenderSuccessResponse :=
          { jobId := jobId, url := none,
            dataUrl := some ("data:application/pdf;base64," ++ base64Encode bytes),
            filename := filename, fileSize := bytes.length,
            expiresAt := none, format := "pdf", width := none, height := none }
        let reg3 := updateJobStatus reg2 jobId .completed
        { resp := .ok resp, httpStatus := 200,
          registry := removeJob reg3 jobId,
          trace := [.pending, .rendering, .completed], events := [.engineInvoked] }

/-- Content type chosen by the image handler. -/
def imageContentType (format : ImageFormat) : String :=
  match format with
  | .jpeg => "image/jpeg"
  | .webp => "image/webp"
  | .png => "image/png"

/-- The `POST /render/image` handler body (try/catch/finally). -/
def imageRoute (cfg : AppConfig) (w : RequestWorld) (body : RawImageBody) (jobId : String)
    (reg : Registry) : PipeOut :=
  let job : RenderJob :=
    { id := jobId, type := .image, url := rawUrlOrUnknown body.url,
      startedAt := 0, status := .pending }
  match validateImage body with
  | .error issues =>
    let reg1 := updateJobStatus reg jobId .failed
    let resp := handleRenderError cfg.production (.zod issues) jobId
    { resp := .err resp, httpStatus := getStatusCode resp.error,
      registry := removeJob reg1 jobId,
      trace := [.pending, .failed], events := [] }
  | .ok request =>
    let reg1 := registerJob reg { job with url := request.url }
    let reg2 := updateJobStatus reg1 jobId .rendering
    match w.renderResult with
    | .error e =>
      let reg3 := updateJobStatus reg2 jobId .failed
      let resp := handleRenderError cfg.production e jobId
      { resp := .err resp, httpStatus := getStatusCode resp.error,
        registry := removeJob reg3 jobId,
        trace := [.pending, .rendering, .failed], events := [.engineInvoked] }
    | .ok bytes =>
      let filename :=
        match request.filename with
        | some f => f ++ "." ++ request.format.ext
        | none => "render-" ++ w.timestamp ++ "." ++ request.format.ext
      let contentType := imageContentType request.format
      if request.uploadToStorage then
        let reg3 := updateJobStatus reg2 jobId .uploading
        let up := uploadFile w.storage bytes.length filename contentType
          request.storagePath jobId
        match up.1 with
        | .error e =>
          let reg4 := updateJobStatus reg3 jobId .failed
          let resp := handleRenderError cfg.production e jobId
          { resp := .err resp, httpStatus := getStatusCode resp.error,
            registry := removeJob reg4 jobId,
            trace := [.pending, .rendering, .uploading, .failed],
            events := .engineInvoked :: up.2 }
        | .ok u =>
          let resp : RenderSuccessResponse :=
            { jobId := jobId, url := some u.signedUrl, dataUrl := none,
              filename := filename, fileSize := bytes.length,
              expiresAt := some u.expiresAt, format := request.format.ext,
              width := some request.width.toNat, height := some request.height.toNat }
          let reg4 := updateJobStatus reg3 jobId .completed
          { resp := .ok resp, httpStatus := 200,
            registry := removeJob reg4 jobId,
            trace := [.pending, .rendering, .uploading, .completed],
            events := .engineInvoked :: up.2 }
      else
        let resp : RenderSuccessResponse :=
          { jobId := jobId, url := none,
            dataUrl := some ("data:" ++ contentType ++ ";base64," ++ base64Encode bytes),
            filename := filename, fileSize := bytes.length,
            expiresAt := none, format := request.format.ext,
            width := some request.width.toNat, height := some request.height.toNat }
        let reg3 := updateJobStatus reg2 jobId .completed
        { resp := .ok resp, httpStatus := 200,
          registry := removeJob reg3 jobId,
          trace := [.pending, .rendering, .completed], events := [.engineInvoked] }

/-! ## Admission gate (`src/middleware/concurrency.ts`, `concurrencyLimit`)

Mounted before the render router
(`app.use("/render", apiKeyAuth, concurrencyLimit, renderRouter)`). -/

/-- The `concurrencyLimit` middleware: a 503 body when the live count has
reached the ceiling, else pass through (`next()`). -/
def concurrencyLimitGate (maxConcurrent : Nat) (reg : Registry) :
    Option RenderErrorResponse :=
  if getActiveJobCount reg ≥ maxConcurrent then
    some
      { error := .CONCURRENCY_LIMIT
        message := "Server is at capacity. Max " ++ toString maxConcurrent
          ++ " concurrent jobs allowed. Please retry later."
        jobId := none
        details := .capacity (getActiveJobCount reg) maxConcurrent }
  else none

/-- `POST /render/pdf` as mounted: middleware, then handler. -/
def renderPdfEndpoint (cfg : AppConfig) (w : RequestWorld) (body : RawPdfBody)
    (jobId : String) (reg : Registry) : PipeOut :=
  match concurrencyLimitGate cfg.maxConcurrentJobs reg with
  | some resp =>
    { resp := .err resp, httpStatus := 503, registry := reg, trace := [], events := [] }
  | none => pdfRoute cfg w body jobId reg

/-- `POST /render/image` as mounted: middleware, then handler. -/
def renderImageEndpoint (cfg : AppConfig) (w : RequestWorld) (body : RawImageBody)
    (jobId : String) (reg : Registry) : PipeOut :=
  match concurrencyLimitGate cfg.maxConcurrentJobs reg with
  | some resp =>
    { resp := .err resp, httpStatus := 503, registry := reg, trace := [], events := [] }
  | none => imageRoute cfg w body jobId reg

/-! ## Job lifecycle state machine (spec §4.5, read off the handler) -/

/-- The allowed transitions of the job state machine. -/
def stepOk : JobStatus → JobStatus → Bool
  | .pending, .rendering => true
  | .pending, .failed => true
  | .rendering, .uploading => true
  | .rendering, .completed => true
  | .rendering, .failed => true
  | .uploading, .completed => true
  | .uploading, .failed => true
  | _, _ => false

/-- A status list is a path through the state machine. -/
def chainOk : List JobStatus → Bool
  | [] => true
  | [_] => true
  | a :: b :: rest => stepOk a b && chainOk (b :: rest)

/-- Terminal states. -/
def isTerminal : JobStatus → Bool
  | .completed => true
  | .failed => true
  | _ => false

/-- The lifecycle contract of one handler run: the status trace starts at
`pending`, only takes allowed transitions, ends in a terminal state,
passes through no terminal state before the end, and the job is gone from
the final registry. -/
def LifecycleOk (out : PipeOut) (jobId : String) : Prop :=
  out.trace.head? = some .pending
    ∧ chainOk out.trace = true
    ∧ (out.trace.getLast? = some .completed ∨ out.trace.getLast? = some .failed)
    ∧ (∀ s ∈ out.trace.dropLast, isTerminal s = false)
    ∧ mapGet out.registry jobId = none

/-- The elapsed times at which the readiness poller sampled the flag. -/
def checkTimes (steps : List RenderStep) : List Nat :=
  steps.filterMap fun s =>
    match s with
    | .checkFlag t => some t
    | _ => none

/-! ## Concrete fixtures (used by witnesses) -/

/-- A storage environment with no client configured. -/
def stubStorage : StorageWorld :=
  { configured := false, uploadOutcome := .ok (), signedUrlOutcome := none,
    expiresAt := "2026-01-01T01:00:00.000Z" }

/-- A request environment whose engine returns four PDF bytes (`%PDF`). -/
def worldPdfBytes : RequestWorld :=
  { renderResult := .ok [37, 80, 68, 70], storage := stubStorage,
    timestamp := "2026-01-01T00-00-00-000Z" }

/-- Development configuration with the default ceiling of 2. -/
def cfgDefault : AppConfig :=
  { production := false, maxConcurrentJobs := 2, readyFlagTimeoutMs := 10000 }

/-- A PDF body requesting an inline result. -/
def pdfBodyInline : RawPdfBody :=
  { url := some "/render/a4/invoice-123", authToken := none, paperSize := none,
    orientation := none, printBackground := none, margins := none,
    filename := none, uploadToStorage := some false, storagePath := none }

/-- A PDF body requesting a storage upload. -/
def pdfBodyUpload : RawPdfBody :=
  { pdfBodyInline with uploadToStorage := some true }

/-- The parse of `pdfBodyInline` (all defaults, inline result). -/
def pdfReqInline : PdfRenderRequest :=
  { url := "/render/a4/invoice-123", authToken := none, paperSize := .A4,
    orientation := .portrait, printBackground := true,
    margins := { top := "20mm", bottom := "20mm", left := "15mm", right := "15mm" },
    filename := none, uploadToStorage := false, storagePath := none }

/-- The parse of `pdfBodyUpload` (all defaults, storage upload). -/
def pdfReqUpload : PdfRenderRequest :=
  { pdfReqInline with uploadToStorage := true }

/-- A registry already holding two live jobs. -/
def regTwoJobs : Registry :=
  [("job-a", { id := "job-a", type := .pdf, url := "/a", startedAt := 0, status := .rendering }),
   ("job-b", { id := "job-b", type := .image, url := "/b", startedAt := 0, status := .uploading })]

/-- The boundary image body: `width=4096, height=4096, scale=3`. -/
def imgBoundaryBody : RawImageBody :=
  { url := some "/render/social/post-123", authToken := none, format := none,
    quality := none, width := some 4096, height := some 4096, scale := some 3,
    filename := none, uploadToStorage := some false, storagePath := none }

/-- The rejected image body: `width=4097`. -/
def imgRejectBody : RawImageBody :=
  { imgBoundaryBody with width := some 4097 }

/-- The parse of `imgBoundaryBody`. -/
def imgReqBoundary : ImageRenderRequest :=
  { url := "/render/social/post-123", authToken := none, format := .png,
    quality := 90, width := 4096, height := 4096, scale := 3,
    filename := none, uploadToStorage := false, storagePath := none }

/-- An image body with several structurally invalid fields at once. -/
def imgManyBadBody : RawImageBody :=
  { url := some "/x", authToken := none, format := some "gif",
    quality := some 200, width := some 5000, height := some 0, scale := some 9,
    filename := none, uploadToStorage := none, storagePath := none }

/-- An engine run whose page never sets the readiness flag. -/
def ewNeverReady : EngineWorld :=
  { navigationResult := .ok (), readyFlag := fun _ => false, captureResult := .ok [] }

/-- A request environment wired to that stuck engine run. -/
def worldNeverReady : RequestWorld :=
  { renderResult := renderPdfEngine ewNeverReady 10000, storage := stubStorage,
    timestamp := "2026-01-01T00-00-00-000Z" }

/-- Declared content type of a `data:<type>;base64,<payload>` URL. -/
def dataUrlContentType (s : String) : Option String :=
  if s.startsWith "data:" then
    match (s.drop 5).splitOn ";base64," with
    | ct :: _ :: _ => some ct
    | _ => none
  else none

/-! ## Registry lemmas -/

theorem mapGet_mapSet_self (m : Registry) (k : String) (v : RenderJob) :
    mapGet (mapSet m k v) k = some v := by
  induction m with
  | nil => simp [mapSet, mapGet]
  | cons e rest ih =>
    obtain ⟨k1, v1⟩ := e
    by_cases h : k1 = k <;> simp [mapSet, mapGet, h, ih]

theorem mapGet_mapDelete_self (m : Registry) (k : String) :
    mapGet (mapDelete m k) k = none := by
  induction m with
  | nil => rfl
  | cons e rest ih =>
    by_cases h : e.1 = k <;>
      simp_all [mapDelete, List.filter_cons, h, mapGet]

theorem mapGet_removeJob_self (m : Registry) (k : String) :
    mapGet (removeJob m k) k = none :=
  mapGet_mapDelete_self m k

/-- The in-place status update touches only the entry with the given key. -/
theorem mapGet_setJobStatus_self (m : Registry) (jobId : String) (status : JobStatus)
    (j : RenderJob) (h : mapGet m jobId = some j) :
    mapGet (setJobStatus m jobId status) jobId = some { j with status := status } := by
  induction m with
  | nil => simp [mapGet] at h
  | cons e rest ih =>
    obtain ⟨k1, v1⟩ := e
    by_cases he : k1 = jobId
    · subst he
      simp [mapGet] at h
      simp [setJobStatus, mapGet, h]
    · simp [mapGet, he] at h
      simp [setJobStatus, mapGet, he, ih h]

theorem mapGet_setJobStatus_ne (m : Registry) (jobId : String) (status : JobStatus)
    (k : String) (hk : k ≠ jobId) :
    mapGet (setJobStatus m jobId status) k = mapGet m k := by
  induction m with
  | nil => rfl
  | cons e rest ih =>
    obtain ⟨k1, v1⟩ := e
    by_cases he : k1 = jobId
    · subst he
      have hek : k1 ≠ k := fun hc => hk hc.symm
      simp [setJobStatus, mapGet, hek, ih]
    · by_cases hek : k1 = k
      · subst hek
        simp [setJobStatus, mapGet, he, ih]
      · simp [setJobStatus, mapGet, he, hek, ih]

theorem length_setJobStatus (m : Registry) (jobId : String) (status : JobStatus) :
    (setJobStatus m jobId status).length = m.length := by
  induction m with
  | nil => rfl
  | cons e rest ih =>
    obtain ⟨k1, v1⟩ := e
    by_cases he : k1 = jobId <;> simp [setJobStatus, he, ih]

/-! ## C9 — Job Registry operation contract -/

/-- C9: `registerJob` inserts the job keyed by its id; `updateJobStatus`
mutates only the named job's status, leaving its other fields, all other
jobs and the count unchanged, and is a no-op on the whole registry when
the job is absent; `removeJob` deletes unconditionally; the count and the
job list are pure reads of the registry (the count is the number of
entries and the list is exactly the stored jobs). -/
theorem jobRegistry_contract :
    (∀ (m : Registry) (job : RenderJob), mapGet (registerJob m job) job.id = some job)
      ∧ (∀ (m : Registry) (jobId : String) (status : JobStatus) (j : RenderJob),
          mapGet m jobId = some j →
            mapGet (updateJobStatus m jobId status) jobId = some { j with status := status }
              ∧ (∀ k, k ≠ jobId →
                  mapGet (updateJobStatus m jobId status) k = mapGet m k)
              ∧ getActiveJobCount (updateJobStatus m jobId status) = getActiveJobCount m)
      ∧ (∀ (m : Registry) (jobId : String) (status : JobStatus),
          mapGet m jobId = none → updateJobStatus m jobId status = m)
      ∧ (∀ (m : Registry) (jobId : String), mapGet (removeJob m jobId) jobId = none)
      ∧ (∀ m : Registry, getActiveJobCount m = m.length ∧ getActiveJobs m = m.map (·.2)) := by
  refine ⟨?_, ?_, ?_, ?_, ?_⟩
  · intro m job
    exact mapGet_mapSet_self m job.id job
  · intro m jobId status j h
    refine ⟨?_, ?_, ?_⟩
    · rw [updateJobStatus, h]
      exact mapGet_setJobStatus_self m jobId status j h
    · intro k hk
      rw [updateJobStatus, h]
      exact mapGet_setJobStatus_ne m jobId status k hk
    · rw [updateJobStatus, h]
      simp [getActiveJobCount, length_setJobStatus]
  · intro m jobId status h
    rw [updateJobStatus, h]
  · intro m jobId
    exact mapGet_removeJob_self m jobId
  · intro m
    exact ⟨rfl, rfl⟩

/-- C9 witness: the contract applied to a concrete two-job registry. -/
theorem jobRegistry_contract_witness :
    mapGet (updateJobStatus regTwoJobs "job-a" .completed) "job-a"
        = some { id := "job-a", type := .pdf, url := "/a", startedAt := 0, status := .completed }
      ∧ mapGet (updateJobStatus regTwoJobs "job-a" .completed) "job-b"
          = mapGet regTwoJobs "job-b"
      ∧ getActiveJobCount (updateJobStatus regTwoJobs "job-a" .completed)
          = getActiveJobCount regTwoJobs := by
  have h := jobRegistry_contract.2.1 regTwoJobs "job-a" JobStatus.completed
    { id := "job-a", type := .pdf, url := "/a", startedAt := 0, status := .rendering }
    (by decide)
  exact ⟨h.1, h.2.1 "job-b" (by decide), h.2.2⟩

/-! ## C3 — error code → HTTP status mapping -/

/-- C3: the HTTP status of a failure response is derived from the error
code by exactly the table in `getStatusCode`. -/
theorem errorCode_status_mapping :
    getStatusCode .VALIDATION_FAILED = 400
      ∧ getStatusCode .UNAUTHORIZED = 401
      ∧ getStatusCode .FORBIDDEN = 403
      ∧ getStatusCode .CONCURRENCY_LIMIT = 503
      ∧ getStatusCode .READY_FLAG_TIMEOUT = 408
      ∧ getStatusCode .NAVIGATION_TIMEOUT = 408
      ∧ getStatusCode .STORAGE_FAILED = 500
      ∧ getStatusCode .RENDER_FAILED = 500
      ∧ getStatusCode .INTERNAL_ERROR = 500 :=
  ⟨rfl, rfl, rfl, rfl, rfl, rfl, rfl, rfl, rfl⟩

/-! ## C2 — guaranteed registry cleanup -/

/-- C2: whatever the outcome of validation, rendering or upload — success
or any thrown failure, including one forced during upload — the job's
entry is gone from the registry when the request finishes, on both render
routes. -/
theorem registry_cleanup (cfg : AppConfig) (w : RequestWorld) (pbody : RawPdfBody)
    (ibody : RawImageBody) (jobId : String) (reg : Registry) :
    mapGet (pdfRoute cfg w pbody jobId reg).registry jobId = none
      ∧ mapGet (imageRoute cfg w ibody jobId reg).registry jobId = none := by
  constructor
  · unfold pdfRoute
    rcases validatePdf pbody with issues | request
    · exact mapGet_removeJob_self _ _
    · rcases w.renderResult with e | bytes
      · exact mapGet_removeJob_self _ _
      · by_cases hu : request.uploadToStorage
        · simp only [hu, if_true]
          rcases (uploadFile w.storage bytes.length _ "application/pdf"
              request.storagePath jobId).1 with e | u
          · exact mapGet_removeJob_self _ _
          · exact mapGet_removeJob_self _ _
        · simp only [hu, if_false]
          exact mapGet_removeJob_self _ _
  · unfold imageRoute
    rcases validateImage ibody with issues | request
    · exact mapGet_removeJob_self _ _
    · rcases w.renderResult with e | bytes
      · exact mapGet_removeJob_self _ _
      · by_cases hu : request.uploadToStorage
        · simp only [hu, if_true]
          rcases (uploadFile w.storage bytes.length _ (imageContentType request.format)
              request.storagePath jobId).1 with e | u
          · exact mapGet_removeJob_self _ _
          · exact mapGet_removeJob_self _ _
        · simp only [hu, if_false]
          exact mapGet_removeJob_self _ _

/-! ## C1 — concurrency admission gate -/

/-- C1: when the live count has reached the configured ceiling, the
request is rejected with `CONCURRENCY_LIMIT` and HTTP 503 before any
render work starts — no engine invocation, no registration, registry
untouched; below the ceiling the request is admitted to the handler
unchanged. The ceiling parses to 2 when unset and accepts exactly the
range 1..10. -/
theorem admission_gate (cfg : AppConfig) (w : RequestWorld) (pbody : RawPdfBody)
    (ibody : RawImageBody) (jobId : String) (reg : Registry) :
    (getActiveJobCount reg ≥ cfg.maxConcurrentJobs →
        (renderPdfEndpoint cfg w pbody jobId reg).httpStatus = 503
          ∧ (renderPdfEndpoint cfg w pbody jobId reg).resp.errorCode
              = some .CONCURRENCY_LIMIT
          ∧ (renderPdfEndpoint cfg w pbody jobId reg).registry = reg
          ∧ (renderPdfEndpoint cfg w pbody jobId reg).events = []
          ∧ (renderPdfEndpoint cfg w pbody jobId reg).trace = []
          ∧ (renderImageEndpoint cfg w ibody jobId reg).httpStatus = 503
          ∧ (renderImageEndpoint cfg w ibody jobId reg).resp.errorCode
              = some .CONCURRENCY_LIMIT
          ∧ (renderImageEndpoint cfg w ibody jobId reg).registry = reg
          ∧ (renderImageEndpoint cfg w ibody jobId reg).events = [])
      ∧ (getActiveJobCount reg < cfg.maxConcurrentJobs →
          renderPdfEndpoint cfg w pbody jobId reg = pdfRoute cfg w pbody jobId reg
            ∧ renderImageEndpoint cfg w ibody jobId reg = imageRoute cfg w ibody jobId reg)
      ∧ parseMaxConcurrentJobs none = .ok 2
      ∧ (∀ n : Int, parseMaxConcurrentJobs (some n) = .ok n ↔ 1 ≤ n ∧ n ≤ 10) := by
  refine ⟨?_, ?_, rfl, ?_⟩
  · intro h
    simp [renderPdfEndpoint, renderImageEndpoint, concurrencyLimitGate, h,
      RouteResponse.errorCode]
  · intro h
    have hn : ¬ getActiveJobCount reg ≥ cfg.maxConcurrentJobs := by omega
    simp [renderPdfEndpoint, renderImageEndpoint, concurrencyLimitGate, hn]
  · intro n
    constructor
    · intro hp
      by_cases h1 : n < 1
      · simp [parseMaxConcurrentJobs, h1] at hp
      · by_cases h2 : n > 10
        · simp [parseMaxConcurrentJobs, h1, h2] at hp
        · omega
    · intro hr
      have h1 : ¬ n < 1 := by omega
      have h2 : ¬ n > 10 := by omega
      simp [parseMaxConcurrentJobs, h1, h2]

/-- C1 witness: with the default ceiling 2 and two live jobs, a third
request is rejected with 503/`CONCURRENCY_LIMIT` and the registry is
untouched; 7 is an accepted ceiling value. -/
theorem admission_gate_witness :
    (renderPdfEndpoint cfgDefault worldPdfBytes pdfBodyInline "job-c" regTwoJobs).httpStatus
        = 503
      ∧ (renderPdfEndpoint cfgDefault worldPdfBytes pdfBodyInline "job-c"
          regTwoJobs).resp.errorCode = some .CONCURRENCY_LIMIT
      ∧ (renderPdfEndpoint cfgDefault worldPdfBytes pdfBodyInline "job-c"
          regTwoJobs).registry = regTwoJobs
      ∧ (renderPdfEndpoint cfgDefault worldPdfBytes pdfBodyInline "job-c"
          regTwoJobs).events = []
      ∧ parseMaxConcurrentJobs (some 7) = .ok 7 := by
  have h := admission_gate cfgDefault worldPdfBytes pdfBodyInline imgBoundaryBody
    "job-c" regTwoJobs
  have hc := h.1 (by decide)
  exact ⟨hc.1, hc.2.1, hc.2.2.1, hc.2.2.2.1, (h.2.2.2 7).mpr (by decide)⟩

/-! ## C4 — job lifecycle state machine -/

/-- Establish `LifecycleOk` from a concrete trace value. -/
theorem lifecycleOk_of (out : PipeOut) (jobId : String) (t : List JobStatus)
    (ht : out.trace = t) (hreg : mapGet out.registry jobId = none)
    (h1 : t.head? = some .pending) (h2 : chainOk t = true)
    (h3 : t.getLast? = some .completed ∨ t.getLast? = some .failed)
    (h4 : ∀ s ∈ t.dropLast, isTerminal s = false) :
    LifecycleOk out jobId := by
  unfold LifecycleOk
  rw [ht]
  exact ⟨h1, h2, h3, h4, hreg⟩

/-- C4: on both routes the job's status trace starts at `pending`, moves
only along `pending → rendering → uploading → completed` with `failed`
reachable from `pending`, `rendering` and `uploading`, ends in a terminal
state with no terminal state before the end, and the job is removed from
the registry on either terminal state. `uploading` is entered only when
the validated request asked for a storage upload; a successful render
without upload goes `rendering → completed` directly and answers with an
inline encoded payload instead of a link. -/
theorem job_lifecycle (cfg : AppConfig) (w : RequestWorld) (pbody : RawPdfBody)
    (ibody : RawImageBody) (jobId : String) (reg : Registry) :
    LifecycleOk (pdfRoute cfg w pbody jobId reg) jobId
      ∧ (JobStatus.uploading ∈ (pdfRoute cfg w pbody jobId reg).trace →
          ∃ r, validatePdf pbody = .ok r ∧ r.uploadToStorage = true)
      ∧ (∀ r bytes, validatePdf pbody = .ok r → r.uploadToStorage = false →
          w.renderResult = .ok bytes →
            (pdfRoute cfg w pbody jobId reg).trace
                = [.pending, .rendering, .completed]
              ∧ ∃ s, (pdfRoute cfg w pbody jobId reg).resp = .ok s
                  ∧ s.url = none ∧ s.dataUrl.isSome = true)
      ∧ LifecycleOk (imageRoute cfg w ibody jobId reg) jobId
      ∧ (JobStatus.uploading ∈ (imageRoute cfg w ibody jobId reg).trace →
          ∃ r, validateImage ibody = .ok r ∧ r.uploadToStorage = true) := by
  refine ⟨?_, ?_, ?_, ?_, ?_⟩
  · unfold pdfRoute
    rcases hv : validatePdf pbody with issues | request <;> simp only [hv]
    · exact lifecycleOk_of _ jobId [.pending, .failed] rfl (mapGet_removeJob_self _ _) (by decide) (by decide) (by decide) (by decide)
    · rcases hr : w.renderResult with e | bytes <;> simp only [hr]
      · exact lifecycleOk_of _ jobId [.pending, .rendering, .failed] rfl (mapGet_removeJob_self _ _) (by decide) (by decide) (by decide) (by decide)
      · by_cases hu : request.uploadToStorage = true
        · rw [if_pos hu]
          rcases hup : (uploadFile w.storage bytes.length
              (match request.filename with
                | some f => f ++ ".pdf"
                | none => "render-" ++ w.timestamp ++ ".pdf") "application/pdf"
              request.storagePath jobId).1 with e | u <;> simp only [hup]
          · exact lifecycleOk_of _ jobId [.pending, .rendering, .uploading, .failed] rfl (mapGet_removeJob_self _ _) (by decide) (by decide) (by decide) (by decide)
          · exact lifecycleOk_of _ jobId [.pending, .rendering, .uploading, .completed] rfl (mapGet_removeJob_self _ _) (by decide) (by decide) (by decide) (by decide)
        · rw [if_neg hu]
          exact lifecycleOk_of _ jobId [.pending, .rendering, .completed] rfl (mapGet_removeJob_self _ _) (by decide) (by decide) (by decide) (by decide)
  · unfold pdfRoute
    rcases hv : validatePdf pbody with issues | request <;> simp only [hv]
    · intro hmem
      simp at hmem
    · rcases hr : w.renderResult with e | bytes <;> simp only [hr]
      · intro hmem
        simp at hmem
      · by_cases hu : request.uploadToStorage = true
        · rw [if_pos hu]
          intro _
          exact ⟨request, rfl, hu⟩
        · rw [if_neg hu]
          intro hmem
          simp at hmem
  · intro r bytes hv hu hr
    unfold pdfRoute
    simp only [hv, hr]
    rw [if_neg (by simp [hu])]
    exact ⟨rfl, _, rfl, rfl, rfl⟩
  · unfold imageRoute
    rcases hv : validateImage ibody with issues | request <;> simp only [hv]
    · exact lifecycleOk_of _ jobId [.pending, .failed] rfl (mapGet_removeJob_self _ _) (by decide) (by decide) (by decide) (by decide)
    · rcases hr : w.renderResult with e | bytes <;> simp only [hr]
      · exact lifecycleOk_of _ jobId [.pending, .rendering, .failed] rfl (mapGet_removeJob_self _ _) (by decide) (by decide) (by decide) (by decide)
      · by_cases hu : request.uploadToStorage = true
        · rw [if_pos hu]
          rcases hup : (uploadFile w.storage bytes.length
              (match request.filename with
                | some f => f ++ "." ++ request.format.ext
                | none => "render-" ++ w.timestamp ++ "." ++ request.format.ext)
              (imageContentType request.format)
              request.storagePath jobId).1 with e | u <;> simp only [hup]
          · exact lifecycleOk_of _ jobId [.pending, .rendering, .uploading, .failed] rfl (mapGet_removeJob_self _ _) (by decide) (by decide) (by decide) (by decide)
          · exact lifecycleOk_of _ jobId [.pending, .rendering, .uploading, .completed] rfl (mapGet_removeJob_self _ _) (by decide) (by decide) (by decide) (by decide)
        · rw [if_neg hu]
          exact lifecycleOk_of _ jobId [.pending, .rendering, .completed] rfl (mapGet_removeJob_self _ _) (by decide) (by decide) (by decide) (by decide)
  · unfold imageRoute
    rcases hv : validateImage ibody with issues | request <;> simp only [hv]
    · intro hmem
      simp at hmem
    · rcases hr : w.renderResult with e | bytes <;> simp only [hr]
      · intro hmem
        simp at hmem
      · by_cases hu : request.uploadToStorage = true
        · rw [if_pos hu]
          intro _
          exact ⟨request, rfl, hu⟩
        · rw [if_neg hu]
          intro hmem
          simp at hmem

/-- C4 witness: the no-upload success path on a concrete request takes
`pending → rendering → completed` and answers inline. -/
theorem job_lifecycle_witness :
    (pdfRoute cfgDefault worldPdfBytes pdfBodyInline "job-1" []).trace
        = [.pending, .rendering, .completed]
      ∧ ∃ s, (pdfRoute cfgDefault worldPdfBytes pdfBodyInline "job-1" []).resp = .ok s
          ∧ s.url = none ∧ s.dataUrl.isSome = true := by
  have h := (job_lifecycle cfgDefault worldPdfBytes pdfBodyInline imgBoundaryBody
    "job-1" []).2.2.1
  exact h pdfReqInline [37, 80, 68, 70] rfl rfl rfl

/-! ## C10 — unconfigured storage backend -/

/-- C10: when `initStorage` never created a client, a render request that
asks for a storage upload and renders successfully still fails with
`STORAGE_FAILED` (HTTP 500), and the failure is raised by `getClient`
before any backend upload is attempted. -/
theorem storage_unconfigured (cfg : AppConfig) (w : RequestWorld) (pbody : RawPdfBody)
    (ibody : RawImageBody) (jobId : String) (reg : Registry)
    (hs : w.storage.configured = false) :
    (∀ r bytes, validatePdf pbody = .ok r → r.uploadToStorage = true →
        w.renderResult = .ok bytes →
          (pdfRoute cfg w pbody jobId reg).resp.errorCode = some .STORAGE_FAILED
            ∧ (pdfRoute cfg w pbody jobId reg).httpStatus = 500
            ∧ PipelineEvent.uploadAttempted ∉ (pdfRoute cfg w pbody jobId reg).events)
      ∧ (∀ r bytes, validateImage ibody = .ok r → r.uploadToStorage = true →
          w.renderResult = .ok bytes →
            (imageRoute cfg w ibody jobId reg).resp.errorCode = some .STORAGE_FAILED
              ∧ (imageRoute cfg w ibody jobId reg).httpStatus = 500
              ∧ PipelineEvent.uploadAttempted ∉ (imageRoute cfg w ibody jobId reg).events) := by
  have c1 : strContains storageNotConfiguredMessage "READY_FLAG_TIMEOUT" = false := by decide
  have c2 : strContains storageNotConfiguredMessage "NAVIGATION_TIMEOUT" = false := by decide
  have c3 : strContains storageNotConfiguredMessage "Timeout" = false := by decide
  have c4 : strContains storageNotConfiguredMessage "STORAGE_FAILED" = true := by decide
  have hupl : ∀ (len : Nat) (fn ct : String) (sp : Option String) (j : String),
      uploadFile w.storage len fn ct sp j
        = (.error (.err storageNotConfiguredMessage), []) := by
    intro len fn ct sp j
    simp [uploadFile, hs]
  have hclass : ∀ (p : Bool) (j : String),
      (handleRenderError p (.err storageNotConfiguredMessage) j).error
        = .STORAGE_FAILED := by
    intro p j
    simp [handleRenderError, c1, c2, c3, c4]
  constructor
  · intro r bytes hv hu hr
    unfold pdfRoute
    simp only [hv, hr]
    rw [if_pos hu]
    simp only [hupl]
    refine ⟨?_, ?_, ?_⟩
    · simp [RouteResponse.errorCode, hclass]
    · simp [hclass, getStatusCode]
    · simp
  · intro r bytes hv hu hr
    unfold imageRoute
    simp only [hv, hr]
    rw [if_pos hu]
    simp only [hupl]
    refine ⟨?_, ?_, ?_⟩
    · simp [RouteResponse.errorCode, hclass]
    · simp [hclass, getStatusCode]
    · simp

/-- C10 witness: a concrete upload-requesting PDF request against the
unconfigured storage fixture fails with `STORAGE_FAILED`/500 and no
backend upload happens. -/
theorem storage_unconfigured_witness :
    (pdfRoute cfgDefault worldPdfBytes pdfBodyUpload "job-1" []).resp.errorCode
        = some .STORAGE_FAILED
      ∧ (pdfRoute cfgDefault worldPdfBytes pdfBodyUpload "job-1" []).httpStatus = 500
      ∧ PipelineEvent.uploadAttempted
          ∉ (pdfRoute cfgDefault worldPdfBytes pdfBodyUpload "job-1" []).events :=
  (storage_unconfigured cfgDefault worldPdfBytes pdfBodyUpload imgBoundaryBody
    "job-1" [] rfl).1 pdfReqUpload [37, 80, 68, 70] rfl rfl rfl

/-! ## C8 — production redaction of internal error messages -/

/-- C8 counterexample: in production mode the `STORAGE_FAILED` branch
surfaces the internal error text (minus its `STORAGE_FAILED: ` prefix),
so two runs that differ only in the internal message produce different
client-facing messages. -/
theorem error_redaction_counterexample :
    (handleRenderError true (.err "STORAGE_FAILED: bucket misconfigured") "job-1").message
        = "bucket misconfigured"
      ∧ (handleRenderError true (.err "STORAGE_FAILED: bucket misconfigured") "job-1").message
          ≠ (handleRenderError true (.err "STORAGE_FAILED: quota exceeded") "job-1").message := by
  decide

/-- C8 as amended: only failures classified `RENDER_FAILED` (no known
marker in the message) are redacted to the generic "Render failed" in
production — there two runs differing only in the internal text coincide —
and surface the original message in non-production; `VALIDATION_FAILED`,
`READY_FLAG_TIMEOUT`, `NAVIGATION_TIMEOUT` and `INTERNAL_ERROR` responses
carry fixed messages in both modes; `STORAGE_FAILED` responses surface
the internal message, stripped of its `STORAGE_FAILED: ` prefix, in
production as well. -/
theorem error_redaction_policy (m m2 jobId : String) (issues : List ZodIssue) :
    (strContains m "READY_FLAG_TIMEOUT" = false →
      strContains m "NAVIGATION_TIMEOUT" = false →
      strContains m "Timeout" = false →
      strContains m "STORAGE_FAILED" = false →
        (handleRenderError true (.err m) jobId).message = "Render failed"
          ∧ (handleRenderError false (.err m) jobId).message = m)
      ∧ (strContains m "READY_FLAG_TIMEOUT" = false →
          strContains m "NAVIGATION_TIMEOUT" = false →
          strContains m "Timeout" = false →
          strContains m "STORAGE_FAILED" = false →
          strContains m2 "READY_FLAG_TIMEOUT" = false →
          strContains m2 "NAVIGATION_TIMEOUT" = false →
          strContains m2 "Timeout" = false →
          strContains m2 "STORAGE_FAILED" = false →
            (handleRenderError true (.err m) jobId).message
              = (handleRenderError true (.err m2) jobId).message)
      ∧ (strContains m "READY_FLAG_TIMEOUT" = true →
          ∀ p : Bool, (handleRenderError p (.err m) jobId).message
            = "Page did not signal render ready in time. Ensure __RENDER_READY__ is set.")
      ∧ (strContains m "READY_FLAG_TIMEOUT" = false →
          (strContains m "NAVIGATION_TIMEOUT" = true ∨ strContains m "Timeout" = true) →
          ∀ p : Bool, (handleRenderError p (.err m) jobId).message
            = "Page navigation timed out")
      ∧ (strContains m "READY_FLAG_TIMEOUT" = false →
          strContains m "NAVIGATION_TIMEOUT" = false →
          strContains m "Timeout" = false →
          strContains m "STORAGE_FAILED" = true →
          ∀ p : Bool, (handleRenderError p (.err m) jobId).message
            = strDropFirst m "STORAGE_FAILED: ")
      ∧ (∀ p : Bool, (handleRenderError p (.zod issues) jobId).message
          = "Invalid request data")
      ∧ (∀ p : Bool, (handleRenderError p .nonError jobId).message
          = "An unexpected error occurred") := by
  refine ⟨?_, ?_, ?_, ?_, ?_, ?_, ?_⟩
  · intro h1 h2 h3 h4
    simp [handleRenderError, h1, h2, h3, h4]
  · intro h1 h2 h3 h4 g1 g2 g3 g4
    simp [handleRenderError, h1, h2, h3, h4, g1, g2, g3, g4]
  · intro h1 p
    simp [handleRenderError, h1]
  · intro h1 h2 p
    rcases h2 with h2 | h2 <;> simp [handleRenderError, h1, h2]
  · intro h1 h2 h3 h4 p
    simp [handleRenderError, h1, h2, h3, h4]
  · intro p
    rfl
  · intro p
    rfl

/-- C8 amended-claim witness: two unmarked internal messages both map to
the generic "Render failed" in production; non-production surfaces the
original text. -/
theorem error_redaction_policy_witness :
    (handleRenderError true (.err "connection reset by peer") "job-1").message
        = "Render failed"
      ∧ (handleRenderError false (.err "connection reset by peer") "job-1").message
          = "connection reset by peer"
      ∧ (handleRenderError true (.err "connection reset by peer") "job-1").message
          = (handleRenderError true (.err "socket hang up") "job-1").message := by
  have h := error_redaction_policy "connection reset by peer" "socket hang up" "job-1" []
  have ha := h.1 (by decide) (by decide) (by decide) (by decide)
  exact ⟨ha.1, ha.2,
    h.2.1 (by decide) (by decide) (by decide) (by decide) (by decide) (by decide)
      (by decide) (by decide)⟩

/-! ## C7 — image request validation -/

/-- An out-of-range `z.number().min(lo).max(hi)` value contributes an
issue naming its field. -/
theorem mem_numRangeIssues (field : String) (lo hi n : Int) (h : n < lo ∨ hi < n) :
    field ∈ (numRangeIssues field lo hi (some n)).map (·.path) := by
  rcases h with h | h
  · simp [numRangeIssues, h]
  · simp [numRangeIssues, h, List.mem_append]

/-- C7: `width=4096, height=4096, scale=3` is accepted; `width=4097` is
rejected by the route with `VALIDATION_FAILED` (HTTP 400) whose details
carry the full issue list naming `width`; in general a `z.number()` range
field is accepted exactly on its range, every out-of-range or bad-enum
field contributes an issue naming itself regardless of the other fields,
and a body with any issue is rejected with the complete issue list. -/
theorem image_validation_boundaries :
    validateImage imgBoundaryBody = .ok imgReqBoundary
      ∧ (∀ (cfg : AppConfig) (w : RequestWorld) (jobId : String) (reg : Registry),
          (imageRoute cfg w imgRejectBody jobId reg).resp.errorCode
              = some .VALIDATION_FAILED
            ∧ (imageRoute cfg w imgRejectBody jobId reg).httpStatus = 400
            ∧ ∃ resp, (imageRoute cfg w imgRejectBody jobId reg).resp = .err resp
                ∧ resp.details = .zodIssues (imageIssues imgRejectBody)
                ∧ "width" ∈ (imageIssues imgRejectBody).map (·.path))
      ∧ (∀ n : Int, numRangeIssues "width" 1 4096 (some n) = [] ↔ 1 ≤ n ∧ n ≤ 4096)
      ∧ (∀ n : Int, numRangeIssues "scale" 1 3 (some n) = [] ↔ 1 ≤ n ∧ n ≤ 3)
      ∧ (∀ b : RawImageBody,
          (∀ n, b.width = some n → n < 1 ∨ n > 4096 →
              "width" ∈ (imageIssues b).map (·.path))
            ∧ (∀ n, b.height = some n → n < 1 ∨ n > 4096 →
                "height" ∈ (imageIssues b).map (·.path))
            ∧ (∀ n, b.quality = some n → n < 1 ∨ n > 100 →
                "quality" ∈ (imageIssues b).map (·.path))
            ∧ (∀ n, b.scale = some n → n < 1 ∨ n > 3 →
                "scale" ∈ (imageIssues b).map (·.path))
            ∧ (∀ f, b.format = some f → f ∉ ["png", "jpeg", "webp"] →
                "format" ∈ (imageIssues b).map (·.path))
            ∧ (imageIssues b ≠ [] → validateImage b = .error (imageIssues b))) := by
  have hval : validateImage imgRejectBody
      = .error [⟨"width", "Number must be less than or equal to 4096"⟩] := by rfl
  refine ⟨rfl, ?_, ?_, ?_, ?_⟩
  · intro cfg w jobId reg
    unfold imageRoute
    simp only [hval]
    exact ⟨rfl, rfl, _, rfl, rfl, by decide⟩
  · intro n
    constructor
    · intro h
      by_cases h1 : n < 1
      · simp [numRangeIssues, h1] at h
      · by_cases h2 : n > 4096
        · simp [numRangeIssues, h1, h2] at h
        · omega
    · intro h
      have h1 : ¬ n < 1 := by omega
      have h2 : ¬ n > 4096 := by omega
      simp [numRangeIssues, h1, h2]
  · intro n
    constructor
    · intro h
      by_cases h1 : n < 1
      · simp [numRangeIssues, h1] at h
      · by_cases h2 : n > 3
        · simp [numRangeIssues, h1, h2] at h
        · omega
    · intro h
      have h1 : ¬ n < 1 := by omega
      have h2 : ¬ n > 3 := by omega
      simp [numRangeIssues, h1, h2]
  · intro b
    refine ⟨?_, ?_, ?_, ?_, ?_, ?_⟩
    · intro n hw h
      have hm := mem_numRangeIssues "width" 1 4096 n (by omega)
      unfold imageIssues
      rw [hw]
      simp only [List.map_append]
      exact List.mem_append_left _ (List.mem_append_left _ (List.mem_append_right _ hm))
    · intro n hh h
      have hm := mem_numRangeIssues "height" 1 4096 n (by omega)
      unfold imageIssues
      rw [hh]
      simp only [List.map_append]
      exact List.mem_append_left _ (List.mem_append_right _ hm)
    · intro n hq h
      have hm := mem_numRangeIssues "quality" 1 100 n (by omega)
      unfold imageIssues
      rw [hq]
      simp only [List.map_append]
      exact List.mem_append_left _ (List.mem_append_left _
        (List.mem_append_left _ (List.mem_append_right _ hm)))
    · intro n hsc h
      have hm := mem_numRangeIssues "scale" 1 3 n (by omega)
      unfold imageIssues
      rw [hsc]
      simp only [List.map_append]
      exact List.mem_append_right _ hm
    · intro f hf h
      have hm : "format" ∈ (enumIssues "format" ["png", "jpeg", "webp"] (some f)).map
          (·.path) := by
        simp [enumIssues, h]
      unfold imageIssues
      rw [hf]
      simp only [List.map_append]
      exact List.mem_append_left _ (List.mem_append_left _ (List.mem_append_left _
        (List.mem_append_left _ (List.mem_append_right _ hm))))
    · intro h
      unfold validateImage
      rcases hi : imageIssues b with _ | ⟨i, is⟩
      · exact absurd hi h
      · simp

/-- C7 witness: on a body with four out-of-range fields and a bad enum,
every offending field is named in the issue list at once, and validation
rejects with that complete list. -/
theorem image_validation_boundaries_witness :
    "width" ∈ (imageIssues imgManyBadBody).map (·.path)
      ∧ "height" ∈ (imageIssues imgManyBadBody).map (·.path)
      ∧ "quality" ∈ (imageIssues imgManyBadBody).map (·.path)
      ∧ "scale" ∈ (imageIssues imgManyBadBody).map (·.path)
      ∧ "format" ∈ (imageIssues imgManyBadBody).map (·.path)
      ∧ validateImage imgManyBadBody = .error (imageIssues imgManyBadBody) := by
  have h := image_validation_boundaries.2.2.2.2 imgManyBadBody
  exact ⟨h.1 5000 rfl (by decide), h.2.1 0 rfl (by decide), h.2.2.1 200 rfl (by decide),
    h.2.2.2.1 9 rfl (by decide), h.2.2.2.2.1 "gif" rfl (by decide),
    h.2.2.2.2.2 (by decide)⟩

/-! ## C6 — inline data-URL round trip -/

theorem sextetVal_sextetChar : ∀ s : Nat, s < 64 → sextetVal (sextetChar s) = some s := by
  decide

theorem sextetChar_ne_pad : ∀ s : Nat, s < 64 → sextetChar s ≠ '=' := by
  decide

theorem base64EncodeChars_eq_nil_iff (bs : List Nat) :
    base64EncodeChars bs = [] ↔ bs = [] := by
  rcases bs with _ | ⟨a, _ | ⟨b, _ | ⟨c, rest⟩⟩⟩ <;> simp [base64EncodeChars]

theorem base64_decode_encode_aux :
    ∀ (n : Nat) (bs : List Nat), bs.length ≤ n → (∀ b ∈ bs, b < 256) →
      base64DecodeChars (base64EncodeChars bs) = some bs := by
  intro n
  induction n with
  | zero =>
    intro bs hlen hb
    have hnil : bs = [] := List.eq_nil_of_length_eq_zero (Nat.le_zero.mp hlen)
    subst hnil
    rfl
  | succ n ih =>
    intro bs hlen hb
    rcases bs with _ | ⟨a, bs1⟩
    · rfl
    rcases bs1 with _ | ⟨b, bs2⟩
    · have ha : a < 256 := hb a (by simp)
      simp only [base64EncodeChars, base64DecodeChars]
      rw [sextetVal_sextetChar _ (by omega), sextetVal_sextetChar _ (by omega)]
      simp only [if_true, Option.some.injEq, List.cons.injEq, and_true]
      omega
    rcases bs2 with _ | ⟨c, rest⟩
    · have ha : a < 256 := hb a (by simp)
      have hbb : b < 256 := hb b (by simp)
      simp only [base64EncodeChars, base64DecodeChars]
      rw [if_neg (sextetChar_ne_pad _ (by omega)),
        sextetVal_sextetChar _ (by omega), sextetVal_sextetChar _ (by omega),
        sextetVal_sextetChar _ (by omega)]
      simp only [if_true, Option.some.injEq, List.cons.injEq, and_true]
      constructor <;> omega
    · have ha : a < 256 := hb a (by simp)
      have hbb : b < 256 := hb b (by simp)
      have hc : c < 256 := hb c (by simp)
      have hrest : ∀ x ∈ rest, x < 256 := fun x hx => hb x (by simp [hx])
      have hlen2 : rest.length ≤ n := by
        simp only [List.length_cons] at hlen
        omega
      have htail := ih rest hlen2 hrest
      rcases rest with _ | ⟨d, rest2⟩
      · simp only [base64EncodeChars, base64DecodeChars]
        rw [if_neg (sextetChar_ne_pad _ (by omega)),
          sextetVal_sextetChar _ (by omega), sextetVal_sextetChar _ (by omega),
          sextetVal_sextetChar _ (by omega), sextetVal_sextetChar _ (by omega)]
        simp only [Option.some.injEq, List.cons.injEq, and_true]
        refine ⟨by omega, by omega, by omega⟩
      · simp only [base64EncodeChars]
        rcases hh : base64EncodeChars (d :: rest2) with _ | ⟨ch, chs⟩
        · exact absurd ((base64EncodeChars_eq_nil_iff _).mp hh) (by simp)
        · have htail2 : base64DecodeChars (ch :: chs) = some (d :: rest2) := by
            rw [← hh]
            exact htail
          simp only [base64DecodeChars]
          rw [sextetVal_sextetChar _ (by omega), sextetVal_sextetChar _ (by omega),
            sextetVal_sextetChar _ (by omega), sextetVal_sextetChar _ (by omega),
            htail2]
          simp only [Option.some.injEq, List.cons.injEq, and_true]
          refine ⟨by omega, by omega, by omega⟩

/-- Standard base64 decoding is a left inverse of encoding on byte lists. -/
theorem base64_decode_encode (bs : List Nat) (hb : ∀ b ∈ bs, b < 256) :
    base64Decode (base64Encode bs) = some bs :=
  base64_decode_encode_aux bs.length bs (Nat.le_refl _) hb

/-- C6: a successfully rendered PDF request with `uploadToStorage:false`
answers with a `dataUrl` declaring content type `application/pdf` whose
base64 payload decodes to exactly the engine's output bytes, and
`fileSize` equals that byte count. -/
theorem pdf_dataurl_roundtrip (cfg : AppConfig) (w : RequestWorld) (body : RawPdfBody)
    (jobId : String) (reg : Registry) (r : PdfRenderRequest) (bytes : List Nat)
    (hv : validatePdf body = .ok r) (hu : r.uploadToStorage = false)
    (hr : w.renderResult = .ok bytes) (hb : ∀ x ∈ bytes, x < 256) :
    ∃ s, (pdfRoute cfg w body jobId reg).resp = .ok s
      ∧ s.dataUrl = some ("data:application/pdf;base64," ++ base64Encode bytes)
      ∧ base64Decode (base64Encode bytes) = some bytes
      ∧ s.fileSize = bytes.length := by
  unfold pdfRoute
  simp only [hv, hr]
  rw [if_neg (by simp [hu])]
  exact ⟨_, rfl, rfl, base64_decode_encode bytes hb, rfl⟩

/-- C6 witness: the round trip on the concrete bytes `%PDF`. -/
theorem pdf_dataurl_roundtrip_witness :
    ∃ s, (pdfRoute cfgDefault worldPdfBytes pdfBodyInline "job-1" []).resp = .ok s
      ∧ s.dataUrl = some ("data:application/pdf;base64,"
          ++ base64Encode [37, 80, 68, 70])
      ∧ base64Decode (base64Encode [37, 80, 68, 70]) = some [37, 80, 68, 70]
      ∧ s.fileSize = 4 :=
  pdf_dataurl_roundtrip cfgDefault worldPdfBytes pdfBodyInline "job-1" []
    pdfReqInline [37, 80, 68, 70] rfl rfl rfl (by decide)

/-! ## C5 — readiness detector -/

/-- With the flag never set, every polling step reports `false`. -/
theorem pollFlag_false (flag : Nat → Bool) (timeoutMs : Nat)
    (hflag : ∀ t, flag t = false) :
    ∀ (fuel tick : Nat), (pollFlag flag timeoutMs tick fuel).1 = false := by
  intro fuel
  induction fuel with
  | zero => intro tick; rfl
  | succ fuel ih =>
    intro tick
    by_cases ht : 100 * tick > timeoutMs
    · simp [pollFlag, hflag, ht]
    · simp [pollFlag, hflag, ht, ih]

/-- The polling loop samples the flag at consecutive 100ms ticks. -/
theorem pollFlag_times (flag : Nat → Bool) (timeoutMs : Nat) :
    ∀ (fuel tick : Nat),
      ((pollFlag flag timeoutMs tick fuel).2 = []
          ∨ (pollFlag flag timeoutMs tick fuel).2.head? = some (100 * tick))
        ∧ List.Chain' (fun a b => b = a + 100) (pollFlag flag timeoutMs tick fuel).2 := by
  intro fuel
  induction fuel with
  | zero => intro tick; exact ⟨Or.inl rfl, List.chain'_nil⟩
  | succ fuel ih =>
    intro tick
    by_cases hf : flag (100 * tick) = true
    · refine ⟨Or.inr ?_, ?_⟩ <;> simp [pollFlag, hf]
    · have hf1 : flag (100 * tick) = false := by
        cases hfv : flag (100 * tick)
        · rfl
        · exact absurd hfv hf
      by_cases ht : 100 * tick > timeoutMs
      · refine ⟨Or.inr ?_, ?_⟩ <;> simp [pollFlag, hf1, ht]
      · obtain ⟨hh, hc⟩ := ih (tick + 1)
        constructor
        · right
          simp [pollFlag, hf1, ht]
        · have hform : (pollFlag flag timeoutMs tick (fuel + 1)).2
              = 100 * tick :: (pollFlag flag timeoutMs (tick + 1) fuel).2 := by
            simp [pollFlag, hf1, ht]
          rw [hform, List.chain'_cons']
          refine ⟨?_, hc⟩
          intro y hy
          rcases hh with hnil | hhead
          · rw [hnil] at hy
            simp at hy
          · rw [hhead] at hy
            simp at hy
            omega

/-- With the flag never set, the in-page promise resolves `false`. -/
theorem readyFlagResult_false (flag : Nat → Bool) (timeoutMs : Nat)
    (hflag : ∀ t, flag t = false) :
    (readyFlagResult flag timeoutMs).1 = false := by
  simp [readyFlagResult, hflag, pollFlag_false flag timeoutMs hflag]

/-- The sampled times start at elapsed 0 and advance by exactly 100ms. -/
theorem readyFlagResult_times (flag : Nat → Bool) (timeoutMs : Nat) :
    (readyFlagResult flag timeoutMs).2.head? = some 0
      ∧ List.Chain' (fun a b => b = a + 100) (readyFlagResult flag timeoutMs).2 := by
  by_cases hf : flag 0 = true
  · constructor <;> simp [readyFlagResult, hf]
  · have hf1 : flag 0 = false := by
      cases hfv : flag 0
      · rfl
      · exact absurd hfv hf
    obtain ⟨hh, hc⟩ := pollFlag_times flag timeoutMs (timeoutMs / 100 + 2) 1
    constructor
    · simp [readyFlagResult, hf1]
    · have hform : (readyFlagResult flag timeoutMs).2
          = 0 :: (pollFlag flag timeoutMs 1 (timeoutMs / 100 + 2)).2 := by
        simp [readyFlagResult, hf1]
      rw [hform, List.chain'_cons']
      refine ⟨?_, hc⟩
      intro y hy
      rcases hh with hnil | hhead
      · rw [hnil] at hy
        simp at hy
      · rw [hhead] at hy
        simp at hy
        omega

theorem checkTimes_map_checkFlag (ts : List Nat) :
    checkTimes (ts.map RenderStep.checkFlag) = ts := by
  induction ts with
  | nil => rfl
  | cons t ts ih =>
    unfold checkTimes at ih ⊢
    simp [List.filterMap_cons, ih]

/-- The check times of a full detector run are exactly the promise's
sample times. -/
theorem checkTimes_waitForRenderReady (flag : Nat → Bool) (timeoutMs : Nat) :
    checkTimes (waitForRenderReady flag timeoutMs).2
      = (readyFlagResult flag timeoutMs).2 := by
  have hmap := checkTimes_map_checkFlag (readyFlagResult flag timeoutMs).2
  by_cases hres : (readyFlagResult flag timeoutMs).1 = true
  · have hsteps : (waitForRenderReady flag timeoutMs).2
        = .waitFontsReady :: (readyFlagResult flag timeoutMs).2.map .checkFlag
            ++ [.settleDelay 150] := by
      simp [waitForRenderReady, hres]
    rw [hsteps]
    unfold checkTimes at hmap ⊢
    simp [List.filterMap_cons, List.filterMap_append, hmap]
  · have hsteps : (waitForRenderReady flag timeoutMs).2
        = .waitFontsReady :: (readyFlagResult flag timeoutMs).2.map .checkFlag := by
      simp [waitForRenderReady, hres]
    rw [hsteps]
    unfold checkTimes at hmap ⊢
    simp [List.filterMap_cons, hmap]

theorem hasInfix_of_isPrefixOf (s pat : List Char) (h : pat.isPrefixOf s = true) :
    hasInfix s pat = true := by
  unfold hasInfix
  rw [if_pos h]

theorem hasInfix_append_left (l pat r : List Char) :
    hasInfix (l ++ (pat ++ r)) pat = true := by
  induction l with
  | nil =>
    apply hasInfix_of_isPrefixOf
    exact List.isPrefixOf_iff_prefix.mpr (List.prefix_append pat r)
  | cons c l ih =>
    unfold hasInfix
    by_cases hp : pat.isPrefixOf ((c :: l) ++ (pat ++ r)) = true
    · rw [if_pos hp]
    · rw [if_neg hp]
      simpa using ih

/-- The timeout message carries the `READY_FLAG_TIMEOUT` marker. -/
theorem readyMsg_has_marker (t : Nat) :
    strContains (readyFlagTimeoutMessage t) "READY_FLAG_TIMEOUT" = true := by
  unfold strContains readyFlagTimeoutMessage
  apply hasInfix_of_isPrefixOf
  apply List.isPrefixOf_iff_prefix.mpr
  have h1 : ("READY_FLAG_TIMEOUT".data)
      <+: ("READY_FLAG_TIMEOUT: __RENDER_READY__ flag not set within ".data) := by
    decide
  rw [String.data_append, String.data_append]
  exact (h1.trans (List.prefix_append _ _)).trans (List.prefix_append _ _)

/-- The timeout message names the elapsed budget. -/
theorem readyMsg_names_budget (t : Nat) :
    strContains (readyFlagTimeoutMessage t) (toString t ++ "ms") = true := by
  unfold strContains readyFlagTimeoutMessage
  rw [String.data_append, String.data_append, String.data_append, List.append_assoc]
  have h := hasInfix_append_left
    ("READY_FLAG_TIMEOUT: __RENDER_READY__ flag not set within ".data)
    ((toString t).data ++ "ms".data) []
  rw [List.append_nil] at h
  exact h

/-- C5: the detector first waits for fonts, samples the ready flag at
elapsed 0 and then every 100ms; on success the final step is the fixed
150ms settle delay; if the flag is never set it throws the
`READY_FLAG_TIMEOUT` error whose message names the elapsed budget; and in
the pipeline that failure becomes error code `READY_FLAG_TIMEOUT` with
HTTP 408. -/
theorem readiness_detector (flag : Nat → Bool) (timeoutMs : Nat) :
    ((waitForRenderReady flag timeoutMs).2.head? = some .waitFontsReady)
      ∧ (checkTimes (waitForRenderReady flag timeoutMs).2).head? = some 0
      ∧ List.Chain' (fun a b => b = a + 100)
          (checkTimes (waitForRenderReady flag timeoutMs).2)
      ∧ ((waitForRenderReady flag timeoutMs).1 = .ok () →
          (waitForRenderReady flag timeoutMs).2.getLast? = some (.settleDelay 150))
      ∧ ((∀ t, flag t = false) →
          (waitForRenderReady flag timeoutMs).1
              = .error (.err (readyFlagTimeoutMessage timeoutMs))
            ∧ strContains (readyFlagTimeoutMessage timeoutMs)
                (toString timeoutMs ++ "ms") = true
            ∧ strContains (readyFlagTimeoutMessage timeoutMs) "READY_FLAG_TIMEOUT"
                = true)
      ∧ (∀ (cfg : AppConfig) (w : RequestWorld) (ew : EngineWorld) (body : RawPdfBody)
            (jobId : String) (reg : Registry) (r : PdfRenderRequest),
          w.renderResult = renderPdfEngine ew cfg.readyFlagTimeoutMs →
          ew.navigationResult = .ok () →
          (∀ t, ew.readyFlag t = false) →
          validatePdf body = .ok r →
            (pdfRoute cfg w body jobId reg).resp.errorCode = some .READY_FLAG_TIMEOUT
              ∧ (pdfRoute cfg w body jobId reg).httpStatus = 408) := by
  refine ⟨?_, ?_, ?_, ?_, ?_, ?_⟩
  · by_cases hres : (readyFlagResult flag timeoutMs).1 = true <;>
      simp [waitForRenderReady, hres]
  · rw [checkTimes_waitForRenderReady]
    exact (readyFlagResult_times flag timeoutMs).1
  · rw [checkTimes_waitForRenderReady]
    exact (readyFlagResult_times flag timeoutMs).2
  · by_cases hres : (readyFlagResult flag timeoutMs).1 = true
    · have hsteps : (waitForRenderReady flag timeoutMs).2
          = .waitFontsReady :: (readyFlagResult flag timeoutMs).2.map .checkFlag
              ++ [.settleDelay 150] := by
        simp [waitForRenderReady, hres]
      intro _
      rw [hsteps]
      exact List.getLast?_concat _
    · have hv1 : (waitForRenderReady flag timeoutMs).1
          = .error (.err (readyFlagTimeoutMessage timeoutMs)) := by
        simp [waitForRenderReady, hres]
      intro h
      rw [hv1] at h
      exact Except.noConfusion h
  · intro hflag
    have hfalse := readyFlagResult_false flag timeoutMs hflag
    refine ⟨?_, readyMsg_names_budget timeoutMs, readyMsg_has_marker timeoutMs⟩
    simp [waitForRenderReady, hfalse]
  · intro cfg w ew body jobId reg r hw hnav hflag hv
    have hfalse := readyFlagResult_false ew.readyFlag cfg.readyFlagTimeoutMs hflag
    have hfail : (waitForRenderReady ew.readyFlag cfg.readyFlagTimeoutMs).1
        = .error (.err (readyFlagTimeoutMessage cfg.readyFlagTimeoutMs)) := by
      simp [waitForRenderReady, hfalse]
    have hengine : renderPdfEngine ew cfg.readyFlagTimeoutMs
        = .error (.err (readyFlagTimeoutMessage cfg.readyFlagTimeoutMs)) := by
      unfold renderPdfEngine
      rw [hnav]
      simp only [hfail]
    have hclass : ∀ (p : Bool) (j : String),
        (handleRenderError p (.err (readyFlagTimeoutMessage cfg.readyFlagTimeoutMs))
          j).error = .READY_FLAG_TIMEOUT := by
      intro p j
      simp [handleRenderError, readyMsg_has_marker]
    unfold pdfRoute
    simp only [hv, hw, hengine]
    constructor
    · simp [RouteResponse.errorCode, hclass]
    · simp [hclass, getStatusCode]

/-- C5 witness: with the flag never set and the default 10000ms budget,
the detector throws the budget-naming timeout error and the route answers
`READY_FLAG_TIMEOUT` with HTTP 408. -/
theorem readiness_detector_witness :
    (waitForRenderReady (fun _ => false) 10000).1
        = .error (.err (readyFlagTimeoutMessage 10000))
      ∧ strContains (readyFlagTimeoutMessage 10000) (toString 10000 ++ "ms") = true
      ∧ (pdfRoute cfgDefault worldNeverReady pdfBodyInline "job-1" []).resp.errorCode
          = some .READY_FLAG_TIMEOUT
      ∧ (pdfRoute cfgDefault worldNeverReady pdfBodyInline "job-1" []).httpStatus
          = 408 := by
  have h := readiness_detector (fun _ => false) 10000
  have h5 := h.2.2.2.2.1 (fun _ => rfl)
  have h6 := h.2.2.2.2.2 cfgDefault worldNeverReady ewNeverReady pdfBodyInline
    "job-1" [] pdfReqInline rfl rfl (fun _ => rfl) rfl
  exact ⟨h5.1, h5.2.1, h6.1, h6.2⟩

end RenderApi
